import Mathlib

/-!
Shallow embedding of `crates/cust/src/memory/device/device_buffer.rs`.

The owned device buffer is a pair of a device pointer (`Nat`, with `0` the
null sentinel) and an element capacity.  The CUDA driver is modelled as a
`Device` state (an association list from live handles to element contents plus
a fresh-handle counter) together with oracle parameters (`Option CudaError`)
that decide whether each driver primitive succeeds or fails.  Every embedded
operation additionally returns the list of driver primitive calls it issued,
so that claims about which primitives run (and how often) are statable.

Machine integers: `usize` is modelled as `Nat` with explicit overflow checks
against `USIZE = 2 ^ 64`.
-/

namespace Cust

/-- Number of values of `usize` on the 64-bit targets CUDA supports; a byte
size computation overflows exactly when it reaches this bound. -/
def USIZE : Nat := 2 ^ 64

/-- Error type of the driver layer (`CudaError` in `cust::error`).  The
embedding keeps the variant the allocation path produces on overflow
(`InvalidMemoryAllocation`), a variant for a length-mismatch failure of the
view copy contract, and an indexed family standing for every other driver
error code. -/
inductive CudaError where
  | invalidMemoryAllocation : CudaError
  | lengthMismatch : CudaError
  | driver : Nat → CudaError
  deriving DecidableEq, Repr

/-- The owned device buffer (`DeviceBuffer<T>`): a device pointer `buf`
(null sentinel `0`) and an element count `capacity`.  The element type `T`
appears in the embedding only through its size `sizeT`, passed to each
operation. -/
structure DeviceBuffer where
  buf : Nat
  capacity : Nat
  deriving DecidableEq, Repr

/-- Device-side memory state: live allocations as an association list from
handle to element contents, and the next fresh handle the driver would hand
out.  A well-formed driver never hands out the null sentinel, so `1 ≤ next`
in every state the theorems consider. -/
structure Device where
  mem : List (Nat × List Nat)
  next : Nat
  deriving DecidableEq, Repr

/-- Contents of allocation `h` (first matching entry; `[]` if not live). -/
def Device.read (d : Device) (h : Nat) : List Nat :=
  match d.mem.find? (fun p => p.1 = h) with
  | some p => p.2
  | none => []

/-- Overwrite the contents of allocation `h`. -/
def Device.write (d : Device) (h : Nat) (xs : List Nat) : Device :=
  ⟨d.mem.map (fun p => if p.1 = h then (h, xs) else p), d.next⟩

/-- Remove allocation `h` from the live set. -/
def Device.freeHandle (d : Device) (h : Nat) : Device :=
  ⟨d.mem.filter (fun p => ¬ p.1 = h), d.next⟩

/-- Whether allocation `h` is live. -/
def Device.live (d : Device) (h : Nat) : Bool :=
  d.mem.any (fun p => p.1 = h)

/-- Trace of calls into the driver primitives issued by an embedded
operation. -/
inductive PrimCall where
  | malloc : Nat → PrimCall
  | memsetD8 : Nat → Nat → Nat → PrimCall
  | free : Nat → PrimCall
  | copyHtoD : Nat → List Nat → PrimCall
  | copyDtoH : Nat → Nat → PrimCall
  deriving DecidableEq, Repr

/-- Modelled from the spec: the Allocation Primitives operation
`allocate(n elements) → handle | error` (`cuda_malloc`, outside `src/`).
It must report `InvalidAllocationSize` (the code calls it
`InvalidMemoryAllocation`) when `n * element_size` cannot be represented in
`usize`, rather than wrapping, and must not partially succeed; otherwise the
driver either refuses (`fail = some e`) or returns a fresh non-null handle
whose contents are unspecified (`junk`). -/
def cuda_malloc (sizeT n : Nat) (junk : List Nat) (fail : Option CudaError)
    (d : Device) : Except CudaError (Nat × Device) :=
  if USIZE ≤ n * sizeT then
    .error CudaError.invalidMemoryAllocation
  else
    match fail with
    | some e => .error e
    | none => .ok (d.next, ⟨(d.next, junk) :: d.mem, d.next + 1⟩)

/-- Modelled from the spec: the Allocation Primitives operation
`free(handle) → success | error` (`cuda_free`, outside `src/`).  On success
the allocation leaves the live set; on failure the state is unchanged. -/
def cuda_free (h : Nat) (fail : Option CudaError) (d : Device) :
    Except CudaError Device :=
  match fail with
  | some e => .error e
  | none => .ok (d.freeHandle h)

/-- Modelled from the spec: the zero-fill primitive (`cuMemsetD8_v2`, outside
`src/`), at element granularity: on success every element of allocation `h`
becomes the all-zero-bytes pattern (the byte count argument is recorded in
the trace); on failure the state is unchanged. -/
def cuMemsetD8 (h byte nbytes : Nat) (fail : Option CudaError) (d : Device) :
    Except CudaError Device :=
  match fail, byte, nbytes with
  | some e, _, _ => .error e
  | none, _, _ => .ok (d.write h (List.replicate (d.read h).length 0))

/-- `DeviceBuffer::from_raw_parts(ptr, capacity)`: pure field assembly, no
driver call, no validation of the handle. -/
def DeviceBuffer.from_raw_parts (ptr : Nat) (capacity : Nat) : DeviceBuffer :=
  ⟨ptr, capacity⟩

/-- `DeviceBuffer::uninitialized(size)`: when `size > 0` and the element size
is nonzero, request an allocation and propagate its error; otherwise produce
the null handle without touching the driver.  The capacity is `size` in both
cases. -/
def DeviceBuffer.uninitialized (sizeT n : Nat) (junk : List Nat)
    (mallocFail : Option CudaError) (d : Device) :
    Except CudaError DeviceBuffer × Device × List PrimCall :=
  if 0 < n ∧ 0 < sizeT then
    match cuda_malloc sizeT n junk mallocFail d with
    | .error e => (.error e, d, [PrimCall.malloc n])
    | .ok (p, d1) => (.ok ⟨p, n⟩, d1, [PrimCall.malloc n])
  else
    (.ok ⟨0, n⟩, d, [])

/-- `DeviceBuffer::zeroed(size)`: as `uninitialized`, then
`cuMemsetD8_v2(ptr, 0, size * size_of::<T>())`.  A memset error is propagated
with the `?` operator; the freshly allocated raw `DevicePointer` has no
destructor, so no `free` call is issued on that path (the allocation stays
live in the returned device state). -/
def DeviceBuffer.zeroed (sizeT n : Nat) (junk : List Nat)
    (mallocFail memsetFail : Option CudaError) (d : Device) :
    Except CudaError DeviceBuffer × Device × List PrimCall :=
  if 0 < n ∧ 0 < sizeT then
    match cuda_malloc sizeT n junk mallocFail d with
    | .error e => (.error e, d, [PrimCall.malloc n])
    | .ok (p, d1) =>
      match cuMemsetD8 p 0 (n * sizeT) memsetFail d1 with
      | .error e => (.error e, d1, [PrimCall.malloc n, PrimCall.memsetD8 p 0 (n * sizeT)])
      | .ok d2 => (.ok ⟨p, n⟩, d2, [PrimCall.malloc n, PrimCall.memsetD8 p 0 (n * sizeT)])
  else
    (.ok ⟨0, n⟩, d, [])

/-- `impl Drop for DeviceBuffer` (the implicit destructor): an early return
when the handle is null (fields untouched); otherwise, when backed by a real
allocation, the handle is nulled and freed with the free result discarded
(`let _ = cuda_free(ptr)`); finally `capacity` is set to `0`. -/
def DeviceBuffer.dropImpl (sizeT : Nat) (b : DeviceBuffer)
    (freeFail : Option CudaError) (d : Device) :
    DeviceBuffer × Device × List PrimCall :=
  if b.buf = 0 then
    (b, d, [])
  else if 0 < b.capacity ∧ 0 < sizeT then
    match cuda_free b.buf freeFail d with
    | .ok d1 => (⟨0, 0⟩, d1, [PrimCall.free b.buf])
    | .error _ => (⟨0, 0⟩, d, [PrimCall.free b.buf])
  else
    (⟨b.buf, 0⟩, d, [])

/-- `DeviceBuffer::drop(dev_buf)` (explicit, fallible destruction): null
handle succeeds trivially; a real allocation is freed after the handle is
nulled by `mem::replace` — on success `mem::forget(dev_buf)` suppresses the
implicit destructor, on failure the error is returned together with
`from_raw_parts(ptr, capacity)` while the nulled local is dropped as a no-op;
with a non-null handle but zero byte size, the local is simply dropped at
scope exit. -/
def DeviceBuffer.drop (sizeT : Nat) (b : DeviceBuffer)
    (freeFail : Option CudaError) (d : Device) :
    Except (CudaError × DeviceBuffer) Unit × Device × List PrimCall :=
  if b.buf = 0 then
    (.ok (), d, [])
  else if 0 < b.capacity ∧ 0 < sizeT then
    match cuda_free b.buf freeFail d with
    | .ok d1 => (.ok (), d1, [PrimCall.free b.buf])
    | .error e =>
      let rest := DeviceBuffer.dropImpl sizeT ⟨0, b.capacity⟩ freeFail d
      (.error (e, DeviceBuffer.from_raw_parts b.buf b.capacity), rest.2.1,
        PrimCall.free b.buf :: rest.2.2)
  else
    let rest := DeviceBuffer.dropImpl sizeT b freeFail d
    (.ok (), rest.2.1, rest.2.2)

/-- Modelled from the spec: the Device View copy-from-host operation (the
`CopyDestination::copy_from` implementation, outside `src/`).  It must fail on
a length mismatch between source and destination (modelled as the
distinguished `lengthMismatch` error standing for the view's own failure
policy); with matching lengths and a nonzero byte size it issues one
host-to-device driver copy which, on success, overwrites the region with the
host sequence; with zero byte size it skips the driver call. -/
def copy_from_host (sizeT : Nat) (b : DeviceBuffer) (src : List Nat)
    (copyFail : Option CudaError) (d : Device) :
    Except CudaError Device × List PrimCall :=
  if src.length = b.capacity then
    if 0 < b.capacity * sizeT then
      match copyFail with
      | some e => (.error e, [PrimCall.copyHtoD b.buf src])
      | none => (.ok (d.write b.buf src), [PrimCall.copyHtoD b.buf src])
    else
      (.ok d, [])
  else
    (.error CudaError.lengthMismatch, [])

/-- Modelled from the spec: the Device View copy-to-host operation (the
`CopyDestination::copy_to` implementation, outside `src/`): length-checked
like `copy_from_host`; on success the destination receives the region's
contents; with zero byte size the driver call is skipped and the destination
is returned unchanged. -/
def copy_to_host (sizeT : Nat) (b : DeviceBuffer) (dst : List Nat)
    (copyFail : Option CudaError) (d : Device) :
    Except CudaError (List Nat) × List PrimCall :=
  if dst.length = b.capacity then
    if 0 < b.capacity * sizeT then
      match copyFail with
      | some e => (.error e, [PrimCall.copyDtoH b.buf dst.length])
      | none => (.ok (d.read b.buf), [PrimCall.copyDtoH b.buf dst.length])
    else
      (.ok dst, [])
  else
    (.error CudaError.lengthMismatch, [])

/-- `DeviceBuffer::from_slice(slice)`: `uninitialized(slice.len())?`, then
`copy_from(slice)?`.  On a copy error the `?` operator propagates it and the
local buffer goes out of scope, so its implicit destructor runs; on success
the buffer is moved into `Ok` and no destructor runs. -/
def DeviceBuffer.from_slice (sizeT : Nat) (slice junk : List Nat)
    (mallocFail copyFail freeFail : Option CudaError) (d : Device) :
    Except CudaError DeviceBuffer × Device × List PrimCall :=
  match DeviceBuffer.uninitialized sizeT slice.length junk mallocFail d with
  | (.error e, d1, t1) => (.error e, d1, t1)
  | (.ok uninit, d1, t1) =>
    match copy_from_host sizeT uninit slice copyFail d1 with
    | (.ok d2, t2) => (.ok uninit, d2, t1 ++ t2)
    | (.error e, t2) =>
      let rest := DeviceBuffer.dropImpl sizeT uninit freeFail d1
      (.error e, rest.2.1, t1 ++ t2 ++ rest.2.2)

end Cust

namespace Cust

/-- Reading an allocation right after its contents were overwritten, when the
allocation entry is at the head of the live list, yields the new contents. -/
theorem Device.read_write_head (mem : List (Nat × List Nat)) (nx h : Nat)
    (junk xs : List Nat) :
    Device.read (Device.write ⟨(h, junk) :: mem, nx⟩ h xs) h = xs := by
  simp [Device.write, Device.read]

/-- Claim C10: `from_raw_parts(handle, capacity)` is a total, pure field
assembly — it always succeeds, performs no driver call, and the resulting
buffer's handle and capacity fields equal the given arguments exactly. -/
theorem C10_from_raw_parts_is_pure_assembly (h c : Nat) :
    (DeviceBuffer.from_raw_parts h c).buf = h ∧
      (DeviceBuffer.from_raw_parts h c).capacity = c :=
  ⟨rfl, rfl⟩

/-- Claim C1: for a buffer with a non-null handle backed by a real allocation
(positive capacity and element size), explicit destruction returns the free
error paired with a reconstructed buffer of the same handle and capacity when
the free primitive fails, returns `Ok` with the free primitive invoked exactly
once when it succeeds (the implicit destructor never adds a second free), and
returns `Ok` without any free call when the handle is null. -/
theorem C1_explicit_drop_contract (sizeT : Nat) (b : DeviceBuffer)
    (e : CudaError) (d : Device) :
    (b.buf ≠ 0 → 0 < b.capacity → 0 < sizeT →
      DeviceBuffer.drop sizeT b (some e) d =
        (.error (e, DeviceBuffer.from_raw_parts b.buf b.capacity), d,
          [PrimCall.free b.buf])) ∧
    (b.buf ≠ 0 → 0 < b.capacity → 0 < sizeT →
      DeviceBuffer.drop sizeT b none d =
        (.ok (), d.freeHandle b.buf, [PrimCall.free b.buf])) ∧
    (∀ ff, b.buf = 0 → DeviceBuffer.drop sizeT b ff d = (.ok (), d, [])) := by
  refine ⟨?_, ?_, ?_⟩
  · intro h1 h2 h3
    simp [DeviceBuffer.drop, DeviceBuffer.dropImpl, cuda_free,
      DeviceBuffer.from_raw_parts, h1, h2, h3]
  · intro h1 h2 h3
    simp [DeviceBuffer.drop, cuda_free, h1, h2, h3]
  · intro ff h1
    simp [DeviceBuffer.drop, h1]

/-- Witness for C1 at concrete inputs: a live 5-element allocation of an
8-byte element at handle 4096, with a failing free, a succeeding free, and a
null-handle buffer. -/
theorem C1_explicit_drop_contract_witness :
    DeviceBuffer.drop 8 ⟨4096, 5⟩ (some (CudaError.driver 700))
        ⟨[(4096, [1, 2, 3])], 4097⟩ =
      (.error (CudaError.driver 700, DeviceBuffer.from_raw_parts 4096 5),
        ⟨[(4096, [1, 2, 3])], 4097⟩, [PrimCall.free 4096]) ∧
    DeviceBuffer.drop 8 ⟨4096, 5⟩ none ⟨[(4096, [1, 2, 3])], 4097⟩ =
      (.ok (), Device.freeHandle ⟨[(4096, [1, 2, 3])], 4097⟩ 4096,
        [PrimCall.free 4096]) ∧
    DeviceBuffer.drop 8 ⟨0, 5⟩ none ⟨[], 1⟩ = (.ok (), ⟨[], 1⟩, []) :=
  ⟨(C1_explicit_drop_contract 8 ⟨4096, 5⟩ (CudaError.driver 700)
      ⟨[(4096, [1, 2, 3])], 4097⟩).1 (by decide) (by decide) (by decide),
   (C1_explicit_drop_contract 8 ⟨4096, 5⟩ (CudaError.driver 700)
      ⟨[(4096, [1, 2, 3])], 4097⟩).2.1 (by decide) (by decide) (by decide),
   (C1_explicit_drop_contract 8 ⟨0, 5⟩ (CudaError.driver 700) ⟨[], 1⟩).2.2
      none rfl⟩

/-- Claim C3: with `n = 0` or a zero-sized element type, `uninitialized` and
`zeroed` return a buffer with the null handle and capacity `n` without
invoking the allocation primitive (empty call trace), and destroying that
buffer — explicitly or implicitly — issues no free call. -/
theorem C3_zero_size_alloc_and_destroy (sizeT n : Nat) (junk : List Nat)
    (mf msf ff : Option CudaError) (d : Device) (h : n = 0 ∨ sizeT = 0) :
    DeviceBuffer.uninitialized sizeT n junk mf d = (.ok ⟨0, n⟩, d, []) ∧
    DeviceBuffer.zeroed sizeT n junk mf msf d = (.ok ⟨0, n⟩, d, []) ∧
    DeviceBuffer.drop sizeT ⟨0, n⟩ ff d = (.ok (), d, []) ∧
    DeviceBuffer.dropImpl sizeT ⟨0, n⟩ ff d = (⟨0, n⟩, d, []) := by
  have hcond : ¬ (0 < n ∧ 0 < sizeT) := by
    rcases h with h | h <;> simp [h]
  refine ⟨?_, ?_, ?_, ?_⟩ <;>
    simp [DeviceBuffer.uninitialized, DeviceBuffer.zeroed, DeviceBuffer.drop,
      DeviceBuffer.dropImpl, hcond]

/-- Witness for C3 at `n = 0` with an 8-byte element and failing oracles. -/
theorem C3_zero_size_alloc_and_destroy_witness :
    DeviceBuffer.uninitialized 8 0 [] (some (CudaError.driver 2)) ⟨[], 1⟩ =
      (.ok ⟨0, 0⟩, ⟨[], 1⟩, []) ∧
    DeviceBuffer.zeroed 8 0 [] (some (CudaError.driver 2))
        (some (CudaError.driver 2)) ⟨[], 1⟩ = (.ok ⟨0, 0⟩, ⟨[], 1⟩, []) ∧
    DeviceBuffer.drop 8 ⟨0, 0⟩ (some (CudaError.driver 2)) ⟨[], 1⟩ =
      (.ok (), ⟨[], 1⟩, []) ∧
    DeviceBuffer.dropImpl 8 ⟨0, 0⟩ (some (CudaError.driver 2)) ⟨[], 1⟩ =
      (⟨0, 0⟩, ⟨[], 1⟩, []) :=
  C3_zero_size_alloc_and_destroy 8 0 [] (some (CudaError.driver 2))
    (some (CudaError.driver 2)) (some (CudaError.driver 2)) ⟨[], 1⟩
    (Or.inl rfl)

/-- Claim C5: a buffer adopted via `from_raw_parts` with a non-null handle
but capacity `0` (or a zero-sized element type) is destroyed successfully,
both explicitly and implicitly, with an empty primitive-call trace — the
adopted handle is never released by this component. -/
theorem C5_adopted_handle_never_freed (sizeT h c : Nat) (ff : Option CudaError)
    (d : Device) (hh : h ≠ 0) (hz : c = 0 ∨ sizeT = 0) :
    DeviceBuffer.drop sizeT (DeviceBuffer.from_raw_parts h c) ff d =
      (.ok (), d, []) ∧
    DeviceBuffer.dropImpl sizeT (DeviceBuffer.from_raw_parts h c) ff d =
      (⟨h, 0⟩, d, []) := by
  have hcond : ¬ (0 < c ∧ 0 < sizeT) := by
    rcases hz with hz | hz <;> simp [hz]
  constructor <;>
    simp [DeviceBuffer.drop, DeviceBuffer.dropImpl, DeviceBuffer.from_raw_parts,
      hh, hcond]

/-- Witness for C5: handle 4096 adopted with capacity 0, 8-byte element,
failing free oracle. -/
theorem C5_adopted_handle_never_freed_witness :
    DeviceBuffer.drop 8 (DeviceBuffer.from_raw_parts 4096 0)
        (some (CudaError.driver 3)) ⟨[], 1⟩ = (.ok (), ⟨[], 1⟩, []) ∧
    DeviceBuffer.dropImpl 8 (DeviceBuffer.from_raw_parts 4096 0)
        (some (CudaError.driver 3)) ⟨[], 1⟩ = (⟨4096, 0⟩, ⟨[], 1⟩, []) :=
  C5_adopted_handle_never_freed 8 4096 0 (some (CudaError.driver 3)) ⟨[], 1⟩
    (by decide) (Or.inl rfl)

/-- Claim C4, counterexample: the implicit destructor returns early when the
handle is already null, so a buffer with a null handle and capacity 5 keeps
capacity 5 — the claim that capacity is reset to zero "including when the
handle was already null" fails on the code. -/
theorem C4_capacity_not_reset_on_null_handle :
    ¬ ((DeviceBuffer.dropImpl 8 ⟨0, 5⟩ none ⟨[], 1⟩).1.capacity = 0) := by
  decide

/-- Claim C4, amended: implicit destruction never reports or propagates a
failure — the resulting buffer value and the primitive calls issued are
identical whether the free primitive succeeded or failed — and the capacity
field is reset to zero whenever the handle is non-null; when the handle is
already null the destructor returns immediately, leaving both fields
unchanged and issuing no calls. -/
theorem C4_implicit_destructor_amended (sizeT : Nat) (b : DeviceBuffer)
    (d : Device) (f1 f2 : Option CudaError) :
    ((DeviceBuffer.dropImpl sizeT b f1 d).1 =
        (DeviceBuffer.dropImpl sizeT b f2 d).1 ∧
      (DeviceBuffer.dropImpl sizeT b f1 d).2.2 =
        (DeviceBuffer.dropImpl sizeT b f2 d).2.2) ∧
    (b.buf ≠ 0 → (DeviceBuffer.dropImpl sizeT b f1 d).1.capacity = 0) ∧
    (b.buf = 0 → DeviceBuffer.dropImpl sizeT b f1 d = (b, d, [])) := by
  refine ⟨?_, ?_, ?_⟩
  · rcases f1 with _ | e1 <;> rcases f2 with _ | e2 <;>
      simp [DeviceBuffer.dropImpl, cuda_free] <;>
      split_ifs <;> simp
  · intro h1
    rcases f1 with _ | e1 <;>
      simp [DeviceBuffer.dropImpl, cuda_free, h1] <;>
      split_ifs <;> simp
  · intro h1
    simp [DeviceBuffer.dropImpl, h1]

/-- Witness for C4's amended claim: a non-null buffer has its capacity reset,
with a failing free oracle. -/
theorem C4_implicit_destructor_amended_witness :
    (DeviceBuffer.dropImpl 8 ⟨4096, 5⟩ (some (CudaError.driver 700))
        ⟨[], 1⟩).1.capacity = 0 :=
  (C4_implicit_destructor_amended 8 ⟨4096, 5⟩ ⟨[], 1⟩
    (some (CudaError.driver 700)) none).2.1 (by decide)

end Cust

namespace Cust

/-- Claim C2, failing input: `zeroed(5)` for an 8-byte element on a fresh
device, with a succeeding allocation (handle 1) and a failing memset.  The
error is propagated, but the call trace contains no free of handle 1 and the
allocation is still live in the resulting device state — the allocation is
leaked on the zero-fill failure path, contradicting the claim that it is
freed before the error is returned. -/
theorem C2_zeroed_leaks_allocation_on_memset_failure :
    DeviceBuffer.zeroed 8 5 [7, 7, 7, 7, 7] none (some (CudaError.driver 700))
        ⟨[], 1⟩ =
      (.error (CudaError.driver 700), ⟨[(1, [7, 7, 7, 7, 7])], 2⟩,
        [PrimCall.malloc 5, PrimCall.memsetD8 1 0 40]) ∧
    Device.live ⟨[(1, [7, 7, 7, 7, 7])], 2⟩ 1 = true ∧
    ¬ PrimCall.free 1 ∈ [PrimCall.malloc 5, PrimCall.memsetD8 1 0 40] :=
  ⟨rfl, rfl, by decide⟩

/-- Claim C8: whenever `n * element_size` cannot be represented in `usize`,
both `uninitialized(n)` and `zeroed(n)` fail with the
`InvalidMemoryAllocation` error (the spec's `InvalidAllocationSize`),
whatever the driver oracles would have answered — the byte-size computation
is never truncated or wrapped. -/
theorem C8_overflow_reports_invalid_allocation (sizeT n : Nat)
    (junk : List Nat) (mf msf : Option CudaError) (d : Device)
    (hov : USIZE ≤ n * sizeT) :
    (DeviceBuffer.uninitialized sizeT n junk mf d).1 =
      .error CudaError.invalidMemoryAllocation ∧
    (DeviceBuffer.zeroed sizeT n junk mf msf d).1 =
      .error CudaError.invalidMemoryAllocation := by
  have hn : 0 < n := by
    rcases Nat.eq_zero_or_pos n with h | h
    · rw [h, Nat.zero_mul] at hov
      exact absurd hov (by decide)
    · exact h
  have hs : 0 < sizeT := by
    rcases Nat.eq_zero_or_pos sizeT with h | h
    · rw [h, Nat.mul_zero] at hov
      exact absurd hov (by decide)
    · exact h
  constructor <;>
    simp [DeviceBuffer.uninitialized, DeviceBuffer.zeroed, cuda_malloc, hn, hs,
      hov]

/-- Witness for C8: `n = 2 ^ 62` elements of size 8 overflow the 64-bit byte
size. -/
theorem C8_overflow_reports_invalid_allocation_witness :
    (DeviceBuffer.uninitialized 8 (2 ^ 62) [] none ⟨[], 1⟩).1 =
      .error CudaError.invalidMemoryAllocation ∧
    (DeviceBuffer.zeroed 8 (2 ^ 62) [] none none ⟨[], 1⟩).1 =
      .error CudaError.invalidMemoryAllocation :=
  C8_overflow_reports_invalid_allocation 8 (2 ^ 62) [] none none ⟨[], 1⟩
    (by decide)

/-- Claim C9: a successful `uninitialized(n)` with `n > 0` and a nonzero
element size yields a buffer whose capacity is `n` and whose handle is not
the null sentinel (the driver hands out handles starting from a non-null
fresh counter). -/
theorem C9_uninitialized_success_shape (sizeT n : Nat) (junk : List Nat)
    (d : Device) (hn : 0 < n) (hs : 0 < sizeT) (hov : n * sizeT < USIZE)
    (hnext : 1 ≤ d.next) :
    ∃ b d1, DeviceBuffer.uninitialized sizeT n junk none d =
        (.ok b, d1, [PrimCall.malloc n]) ∧ b.capacity = n ∧ b.buf ≠ 0 := by
  refine ⟨⟨d.next, n⟩, ⟨(d.next, junk) :: d.mem, d.next + 1⟩, ?_, rfl,
    Nat.one_le_iff_ne_zero.mp hnext⟩
  simp [DeviceBuffer.uninitialized, cuda_malloc, hn, hs, Nat.not_le.mpr hov]

/-- Witness for C9: five 8-byte elements on a fresh device. -/
theorem C9_uninitialized_success_shape_witness :
    ∃ b d1, DeviceBuffer.uninitialized 8 5 [9, 9, 9, 9, 9] none ⟨[], 1⟩ =
        (.ok b, d1, [PrimCall.malloc 5]) ∧ b.capacity = 5 ∧ b.buf ≠ 0 :=
  C9_uninitialized_success_shape 8 5 [9, 9, 9, 9, 9] ⟨[], 1⟩ (by decide)
    (by decide) (by decide) (by decide)

end Cust

namespace Cust

/-- After freeing a handle, that handle is no longer live. -/
theorem Device.live_freeHandle (d : Device) (h : Nat) :
    Device.live (d.freeHandle h) h = false := by
  simp [Device.live, Device.freeHandle, List.any_eq_true, List.mem_filter]

/-- Claim C6: `from_slice(S)` on the allocating path (nonempty source,
nonzero element size): an allocation error is propagated unchanged with only
the malloc call issued and no buffer value; a copy error is propagated
unchanged with no buffer value, and the fresh allocation is reclaimed through
the ordinary implicit destructor (the trace ends with a free of the fresh
handle, which is no longer live afterwards); on success the buffer has
capacity equal to the source length and the trace is exactly the allocation
followed by the host-to-device copy. -/
theorem C6_from_slice_contract (sizeT : Nat) (slice junk : List Nat)
    (e : CudaError) (d : Device) (hn : 0 < slice.length) (hs : 0 < sizeT)
    (hov : slice.length * sizeT < USIZE) (hnext : 1 ≤ d.next) :
    (∀ cf ff, DeviceBuffer.from_slice sizeT slice junk (some e) cf ff d =
        (.error e, d, [PrimCall.malloc slice.length])) ∧
    (∀ ff,
      (DeviceBuffer.from_slice sizeT slice junk none (some e) ff d).1 =
        .error e ∧
      (DeviceBuffer.from_slice sizeT slice junk none (some e) ff d).2.2 =
        [PrimCall.malloc slice.length, PrimCall.copyHtoD d.next slice,
          PrimCall.free d.next]) ∧
    Device.live
      (DeviceBuffer.from_slice sizeT slice junk none (some e) none d).2.1
      d.next = false ∧
    DeviceBuffer.from_slice sizeT slice junk none none none d =
      (.ok ⟨d.next, slice.length⟩,
        Device.write ⟨(d.next, junk) :: d.mem, d.next + 1⟩ d.next slice,
        [PrimCall.malloc slice.length, PrimCall.copyHtoD d.next slice]) := by
  have hne : d.next ≠ 0 := Nat.one_le_iff_ne_zero.mp hnext
  have hpos : 0 < slice.length * sizeT := Nat.mul_pos hn hs
  refine ⟨?_, ?_, ?_, ?_⟩
  · intro cf ff
    simp [DeviceBuffer.from_slice, DeviceBuffer.uninitialized, cuda_malloc,
      hn, hs, Nat.not_le.mpr hov]
  · intro ff
    rcases ff with _ | f <;>
      simp [DeviceBuffer.from_slice, DeviceBuffer.uninitialized, cuda_malloc,
        copy_from_host, DeviceBuffer.dropImpl, cuda_free, hn, hs,
        Nat.not_le.mpr hov, hpos, hne]
  · simp [DeviceBuffer.from_slice, DeviceBuffer.uninitialized, cuda_malloc,
      copy_from_host, DeviceBuffer.dropImpl, cuda_free, hn, hs,
      Nat.not_le.mpr hov, hpos, hne, Device.live_freeHandle]
  · simp [DeviceBuffer.from_slice, DeviceBuffer.uninitialized, cuda_malloc,
      copy_from_host, hn, hs, Nat.not_le.mpr hov, hpos]

/-- Witness for C6: source `[1, 2, 3]` of an 8-byte element on a fresh
device; the fresh handle is `1`. -/
theorem C6_from_slice_contract_witness :
    DeviceBuffer.from_slice 8 [1, 2, 3] [9, 9, 9]
        (some (CudaError.driver 701)) none none ⟨[], 1⟩ =
      (.error (CudaError.driver 701), ⟨[], 1⟩, [PrimCall.malloc 3]) ∧
    (DeviceBuffer.from_slice 8 [1, 2, 3] [9, 9, 9] none
        (some (CudaError.driver 701)) none ⟨[], 1⟩).1 =
      .error (CudaError.driver 701) ∧
    (DeviceBuffer.from_slice 8 [1, 2, 3] [9, 9, 9] none
        (some (CudaError.driver 701)) none ⟨[], 1⟩).2.2 =
      [PrimCall.malloc 3, PrimCall.copyHtoD 1 [1, 2, 3], PrimCall.free 1] ∧
    Device.live (DeviceBuffer.from_slice 8 [1, 2, 3] [9, 9, 9] none
        (some (CudaError.driver 701)) none ⟨[], 1⟩).2.1 1 = false ∧
    DeviceBuffer.from_slice 8 [1, 2, 3] [9, 9, 9] none none none ⟨[], 1⟩ =
      (.ok ⟨1, 3⟩, Device.write ⟨[(1, [9, 9, 9])], 2⟩ 1 [1, 2, 3],
        [PrimCall.malloc 3, PrimCall.copyHtoD 1 [1, 2, 3]]) :=
  ⟨(C6_from_slice_contract 8 [1, 2, 3] [9, 9, 9] (CudaError.driver 701)
      ⟨[], 1⟩ (by decide) (by decide) (by decide) (by decide)).1 none none,
   ((C6_from_slice_contract 8 [1, 2, 3] [9, 9, 9] (CudaError.driver 701)
      ⟨[], 1⟩ (by decide) (by decide) (by decide) (by decide)).2.1 none).1,
   ((C6_from_slice_contract 8 [1, 2, 3] [9, 9, 9] (CudaError.driver 701)
      ⟨[], 1⟩ (by decide) (by decide) (by decide) (by decide)).2.1 none).2,
   (C6_from_slice_contract 8 [1, 2, 3] [9, 9, 9] (CudaError.driver 701)
      ⟨[], 1⟩ (by decide) (by decide) (by decide) (by decide)).2.2.1,
   (C6_from_slice_contract 8 [1, 2, 3] [9, 9, 9] (CudaError.driver 701)
      ⟨[], 1⟩ (by decide) (by decide) (by decide) (by decide)).2.2.2⟩

/-- Claim C7: for a host sequence `S` of a nonzero-sized element type,
`from_slice(S)` followed by a copy back to a host destination of the same
length reproduces `S` exactly. -/
theorem C7_from_slice_round_trip (sizeT : Nat) (S dst junk : List Nat)
    (d : Device) (hs : 0 < sizeT) (hov : S.length * sizeT < USIZE)
    (hdst : dst.length = S.length) :
    ∃ b d2 t,
      DeviceBuffer.from_slice sizeT S junk none none none d = (.ok b, d2, t) ∧
      (copy_to_host sizeT b dst none d2).1 = .ok S := by
  rcases Nat.eq_zero_or_pos S.length with hn | hn
  · have hS : S = [] := List.eq_nil_of_length_eq_zero hn
    have hD : dst = [] := List.eq_nil_of_length_eq_zero (hdst.trans hn)
    subst hS
    subst hD
    exact ⟨⟨0, 0⟩, d, [],
      by simp [DeviceBuffer.from_slice, DeviceBuffer.uninitialized,
        copy_from_host],
      by simp [copy_to_host]⟩
  · have hpos : 0 < S.length * sizeT := Nat.mul_pos hn hs
    refine ⟨⟨d.next, S.length⟩,
      Device.write ⟨(d.next, junk) :: d.mem, d.next + 1⟩ d.next S,
      [PrimCall.malloc S.length, PrimCall.copyHtoD d.next S], ?_, ?_⟩
    · simp [DeviceBuffer.from_slice, DeviceBuffer.uninitialized, cuda_malloc,
        copy_from_host, hn, hs, Nat.not_le.mpr hov, hpos]
    · simp [copy_to_host, hdst, hpos, Device.read_write_head]

/-- Witness for C7: the sequence `[1, 2, 3]` of an 8-byte element survives
the round trip on a fresh device. -/
theorem C7_from_slice_round_trip_witness :
    ∃ b d2 t,
      DeviceBuffer.from_slice 8 [1, 2, 3] [9, 9, 9] none none none ⟨[], 1⟩ =
        (.ok b, d2, t) ∧
      (copy_to_host 8 b [0, 0, 0] none d2).1 = .ok [1, 2, 3] :=
  C7_from_slice_round_trip 8 [1, 2, 3] [0, 0, 0] [9, 9, 9] ⟨[], 1⟩
    (by decide) (by decide) (by decide)

end Cust
